import Mathlib

/-!
Verification development for the media streaming gateway of the
WarHeadliner backend (`src/backend/server.js`).

The embedding models the `streamMedia` function (lines 226-310) and the
`/api/media/:fileId` route handler (lines 314-376).  JavaScript numbers
that can be `NaN` (the results of `parseInt`) are modelled as
`Option Int` with `none` standing for `NaN`; `NaN` propagates through
arithmetic and makes every comparison false, exactly as in JavaScript.
Strings are handled at the `List Char` level so that all definitions
reduce inside the kernel.
-/

/-- A JavaScript number that is either an integer or `NaN` (`none`). -/
abbrev JsInt := Option Int

/-- JavaScript `a - b`: `NaN` propagates. -/
def jsSub : JsInt → JsInt → JsInt
  | some a, some b => some (a - b)
  | _, _ => none

/-- JavaScript `a + b`: `NaN` propagates. -/
def jsAdd : JsInt → JsInt → JsInt
  | some a, some b => some (a + b)
  | _, _ => none

/-- JavaScript `a >= b`: any comparison involving `NaN` is false. -/
def jsGe : JsInt → JsInt → Bool
  | some a, some b => b ≤ a
  | _, _ => false

/-- Rendering of a JavaScript number in a template literal:
`NaN` prints as `"NaN"`, integers in decimal. -/
def jsNumToString : JsInt → String
  | none => "NaN"
  | some n => toString n

/-- Truthiness of an optional string (`undefined`/`null`/`""` are falsy). -/
def jsTruthyStr : Option String → Bool
  | none => false
  | some s => !(s == "")

/-- Skip the leading whitespace accepted by JavaScript `parseInt`. -/
def skipWs : List Char → List Char
  | [] => []
  | c :: cs => if c = ' ' ∨ c = '\t' ∨ c = '\n' ∨ c = '\r' then skipWs cs else c :: cs

/-- Longest run of leading decimal digits. -/
def leadingDigits : List Char → List Char
  | [] => []
  | c :: cs => if c.isDigit then c :: leadingDigits cs else []

/-- Numeric value of a digit string (most significant first). -/
def digitsVal (ds : List Char) : Nat :=
  ds.foldl (fun a c => 10 * a + (c.toNat - 48)) 0

/-- JavaScript `parseInt(s, 10)`: optional sign, then leading digits;
`NaN` (i.e. `none`) when no digit is found. -/
def jsParseIntChars (cs : List Char) : Option Int :=
  match skipWs cs with
  | '-' :: rest =>
      let ds := leadingDigits rest
      if ds = [] then none else some (-(digitsVal ds : Int))
  | '+' :: rest =>
      let ds := leadingDigits rest
      if ds = [] then none else some ((digitsVal ds : Int))
  | rest =>
      let ds := leadingDigits rest
      if ds = [] then none else some ((digitsVal ds : Int))

/-- `parseInt` on a Lean string. -/
def jsParseInt (s : String) : Option Int :=
  jsParseIntChars s.data

/-- Split a character list at every occurrence of `sep`
(the semantics of JavaScript `String.prototype.split` with a
one-character separator: `[]` maps to `[[]]`, separators at the ends
produce empty fields). -/
def splitOnChar (sep : Char) : List Char → List (List Char)
  | [] => [[]]
  | c :: rest =>
      if c = sep then [] :: splitOnChar sep rest
      else
        match splitOnChar sep rest with
        | [] => [[c]]
        | h :: t => (c :: h) :: t

/-- `range.replace(/bytes=/, "")` (server.js line 246): remove the first
occurrence of the six characters `bytes=`, scanning left to right. -/
def dropFirstBytesEq : List Char → List Char
  | 'b' :: 'y' :: 't' :: 'e' :: 's' :: '=' :: rest => rest
  | c :: rest => c :: dropFirstBytesEq rest
  | [] => []

/-- The `parts` array of server.js line 246:
`range.replace(/bytes=/, "").split("-")`. -/
def rangeParts (r : String) : List (List Char) :=
  splitOnChar '-' (dropFirstBytesEq r.data)

/-- `const start = parseInt(parts[0], 10)` (server.js line 247). -/
def rangeStart (r : String) : JsInt :=
  jsParseIntChars ((rangeParts r).headD [])

/-- `const end = parts[1] ? parseInt(parts[1], 10) : fileSize - 1`
(server.js line 248): an absent or empty second field defaults to
`fileSize - 1`. -/
def rangeEnd (r : String) (fileSize : JsInt) : JsInt :=
  let p1 := (rangeParts r).getD 1 []
  if p1 = [] then jsSub fileSize (some 1) else jsParseIntChars p1

/-- Lowercasing of an ASCII character list (JavaScript `toLowerCase`). -/
def toLowerChars (cs : List Char) : List Char :=
  cs.map Char.toLower

/-- The regex test `filePath.match(/\.(mp4|mov|avi|webm)$/i)`
(server.js lines 239 and 343). -/
def matchesVideoExt (p : String) : Bool :=
  let l := toLowerChars p.data
  List.isSuffixOf ".mp4".data l || List.isSuffixOf ".mov".data l ||
    List.isSuffixOf ".avi".data l || List.isSuffixOf ".webm".data l

/-- The extension → MIME table of `getContentType` (server.js lines 231-235). -/
def mimeTypes : List (String × String) :=
  [("mp4", "video/mp4"), ("mov", "video/quicktime"), ("avi", "video/x-msvideo"),
   ("webm", "video/webm"), ("jpg", "image/jpeg"), ("jpeg", "image/jpeg"),
   ("png", "image/png"), ("gif", "image/gif"), ("webp", "image/webp")]

/-- `path.split('.').pop().toLowerCase()` (server.js line 230). -/
def jsExtOf (p : String) : String :=
  String.mk (toLowerChars ((splitOnChar '.' p.data).getLastD []))

/-- `getContentType` (server.js lines 229-237): table lookup on the
extension, falling back to `application/octet-stream`. -/
def getContentType (p : String) : String :=
  (mimeTypes.lookup (jsExtOf p)).getD "application/octet-stream"

/-- The content-type resolution of server.js lines 238-241:
`let contentType = headResponse.headers['content-type']` overridden by
`getContentType(filePath)` exactly when the path has a video extension.
An absent upstream content type stays absent (`none`). -/
def resolveContentType (upstreamCt : Option String) (p : String) : Option String :=
  if matchesVideoExt p then some (getContentType p) else upstreamCt

/-- `(headResponse.headers['content-type'] || '').startsWith('video/')`
(server.js line 343). -/
def startsWithVideo (ct : Option String) : Bool :=
  List.isPrefixOf "video/".data (ct.getD "").data

/-- `isVideo` of server.js line 343. -/
def isVideoOf (ct : Option String) (p : String) : Bool :=
  startsWithVideo ct || matchesVideoExt p

/-- The relay plan decided by the Range-handling code of `streamMedia`. -/
inductive RelayPlan where
  | full
  | unsatisfiable
  | ranged (s e : JsInt)
deriving DecidableEq

/-- The Range Planner (server.js lines 227 and 244-253):
`const range = isVideo ? req.headers.range : null` followed by
`if (isVideo && range) { ... if (start >= fileSize) 416 ... }`.
A missing header or non-video media yields `full`; otherwise the header
is parsed and `start >= fileSize` (false whenever either side is `NaN`)
selects `unsatisfiable`, else `ranged start end` with no clamping. -/
def rangePlan (range : Option String) (isVideo : Bool) (fileSize : JsInt) : RelayPlan :=
  if isVideo && jsTruthyStr range then
    let r := range.getD ""
    if jsGe (rangeStart r) fileSize then RelayPlan.unsatisfiable
    else RelayPlan.ranged (rangeStart r) (rangeEnd r fileSize)
  else RelayPlan.full

/-- Bytes of a string body (e.g. the text sent with `res.send`). -/
def strBytes (s : String) : List Nat :=
  s.data.map Char.toNat

/-- One upstream byte-fetch call (`axios.get` on the file URL), recording
the forwarded Range both structurally and as the rendered header value
`bytes=${start}-${end}` (server.js line 257). -/
structure UpstreamCall where
  rangeParams : Option (JsInt × JsInt)
  rangeHeaderValue : Option String
deriving DecidableEq

/-- The externally visible outcome of `streamMedia`: response status,
response headers in the order they are set (a `none` value models a
JavaScript `undefined` header value), body bytes, and the list of
upstream byte-fetch calls made. -/
structure MediaResponse where
  status : Nat
  headers : List (String × Option String)
  body : List Nat
  upstreamCalls : List UpstreamCall
deriving DecidableEq

/-- Execution of a relay plan, following `streamMedia`
(server.js lines 250-309):
* `unsatisfiable`: `res.status(416).send('Requested range not satisfiable')`
  and no upstream call;
* `ranged s e`: one upstream call with `Range: bytes=${s}-${e}`, then
  `res.writeHead(206, {...})` with Content-Range, Accept-Ranges,
  Content-Length = `(e - s) + 1`, Content-Type and Cache-Control, piping
  the upstream body;
* `full`: one upstream call without a Range (line 286, made before any
  header is set), then `setHeader` for `Content-Type`, (video only)
  `Accept-Ranges` and the raw upstream `content-length`, then
  `Cache-Control`, piping the whole body.  Node's `res.setHeader` throws
  `ERR_HTTP_INVALID_HEADER_VALUE` on an `undefined` value — line 291
  when the resolved content type is absent, line 294 when a video's
  `content-length` header is absent — so in those cases the promise
  rejects before anything is sent and the route's catch (line 346)
  responds 500 with an error JSON; the upstream call has already been
  made.  The 206 path is not subject to this: range-eligibility
  guarantees a resolved content type (`isVideoOf_isSome`) and all other
  `writeHead` values are strings or numbers. -/
def relayResponse (plan : RelayPlan) (isVideo : Bool) (contentType : Option String)
    (contentLengthRaw : Option String) (fileSize : JsInt)
    (fetch : Option (JsInt × JsInt) → List Nat) : MediaResponse :=
  match plan with
  | RelayPlan.unsatisfiable =>
      { status := 416, headers := [],
        body := strBytes "Requested range not satisfiable", upstreamCalls := [] }
  | RelayPlan.ranged s e =>
      { status := 206,
        headers :=
          [("Content-Range",
             some ("bytes " ++ jsNumToString s ++ "-" ++ jsNumToString e ++ "/" ++
               jsNumToString fileSize)),
           ("Accept-Ranges", some "bytes"),
           ("Content-Length", some (jsNumToString (jsAdd (jsSub e s) (some 1)))),
           ("Content-Type", contentType),
           ("Cache-Control", some "public, max-age=86400")],
        body := fetch (some (s, e)),
        upstreamCalls :=
          [{ rangeParams := some (s, e),
             rangeHeaderValue :=
               some ("bytes=" ++ jsNumToString s ++ "-" ++ jsNumToString e) }] }
  | RelayPlan.full =>
      if contentType.isNone || (isVideo && contentLengthRaw.isNone) then
        { status := 500, headers := [],
          body := strBytes "Failed to fetch media due to an unhandled streaming error",
          upstreamCalls := [{ rangeParams := none, rangeHeaderValue := none }] }
      else
        { status := 200,
          headers :=
            [("Content-Type", contentType)] ++
            (if isVideo then
              [("Accept-Ranges", some "bytes"), ("Content-Length", contentLengthRaw)]
             else []) ++
            [("Cache-Control", some "public, max-age=86400")],
          body := fetch none,
          upstreamCalls := [{ rangeParams := none, rangeHeaderValue := none }] }

/-- The upstream HEAD response as used by `streamMedia`. -/
structure UpstreamHead where
  contentType : Option String
  contentLength : Option String
deriving DecidableEq

/-- `streamMedia(req, res, fileUrl, isVideo, headResponse)`
(server.js lines 226-310) as a function of: the request's Range header,
the URL pathname of the resolved file, the `isVideo` flag computed by the
route, the HEAD response, and the upstream byte store (`fetch`).
`fileSize` is `parseInt(headResponse.headers['content-length'], 10)`;
an absent header interpolates as the string `"undefined"` and parses to
`NaN`, exactly as in JavaScript. -/
def streamMedia (range : Option String) (pathName : String) (isVideo : Bool)
    (head : UpstreamHead) (fetch : Option (JsInt × JsInt) → List Nat) : MediaResponse :=
  relayResponse
    (rangePlan range isVideo (jsParseInt (head.contentLength.getD "undefined")))
    isVideo
    (resolveContentType head.contentType pathName)
    head.contentLength
    (jsParseInt (head.contentLength.getD "undefined"))
    fetch

/-- A compliant upstream byte store holding the object `obj`: a request
without a Range returns the whole object; a request with a valid numeric
range `bytes=s-e` (with `0 ≤ s ≤ e` and `s` inside the object) returns
the inclusive slice, clamped at the end of the object; any other request
returns the whole object. -/
def telegramFetch (obj : List Nat) : Option (JsInt × JsInt) → List Nat
  | some (some s, some e) =>
      if 0 ≤ s ∧ s ≤ e ∧ s < (obj.length : Int) then
        (obj.drop s.toNat).take (e - s + 1).toNat
      else obj
  | _ => obj

/-- The Telegram `getFile` reply as used by the route handler:
`data.ok` and `data.result.file_path`. -/
structure GetFileResp where
  ok : Bool
  filePathField : Option String
deriving DecidableEq

/-- Outcome of the route handler: terminal status, how many HEAD
(descriptor) calls were made, and the relay response if the relay stage
was entered. -/
structure HandlerResult where
  status : Nat
  headCalls : Nat
  relay : Option MediaResponse
deriving DecidableEq

/-- The `/api/media/:fileId` route handler (server.js lines 314-376):
missing bot token → 500 before any upstream call; `!data.ok` → 404
before any HEAD or byte fetch.  Otherwise the file URL is built by the
template literal of line 338 (a missing `file_path` renders as the text
`"undefined"` there, while the variable itself stays `undefined`), the
HEAD call of line 342 is made, and line 343 computes `isVideo`:
`(ct || '').startsWith('video/') || filePath.match(...)`.  The `||`
short-circuits, so when the HEAD content type is `video/*` the `.match`
on a missing path never runs and the relay is entered with the literal
`undefined` path segment; when it is not, `filePath.match` on
`undefined` raises a TypeError that the route's try/catch (line 361)
turns into a 500 — after the HEAD call, but before `streamMedia` and
before any byte fetch. -/
def mediaHandler (botToken : Option String) (gf : GetFileResp) (range : Option String)
    (head : UpstreamHead) (fetch : Option (JsInt × JsInt) → List Nat) : HandlerResult :=
  match botToken with
  | none => { status := 500, headCalls := 0, relay := none }
  | some tok =>
      if gf.ok then
        match gf.filePathField with
        | some fp =>
            let pathName := "/file/bot" ++ tok ++ "/" ++ fp
            let isVideo := startsWithVideo head.contentType || matchesVideoExt fp
            let resp := streamMedia range pathName isVideo head fetch
            { status := resp.status, headCalls := 1, relay := some resp }
        | none =>
            if startsWithVideo head.contentType then
              let resp := streamMedia range ("/file/bot" ++ tok ++ "/undefined") true
                head fetch
              { status := resp.status, headCalls := 1, relay := some resp }
            else
              { status := 500, headCalls := 1, relay := none }
      else { status := 404, headCalls := 0, relay := none }

/-- State of one relay session: whether response headers have been
flushed, whether the upstream stream has been destroyed, whether the
response has been ended, the response status, and the bytes written to
the client so far. -/
structure Session where
  headersSent : Bool
  upstreamDestroyed : Bool
  resEnded : Bool
  status : Nat
  written : List Nat
deriving DecidableEq

/-- Events observable by the handlers wired in `streamMedia`
(server.js lines 270-281 and 298-309): a data chunk from the upstream
stream, an upstream stream `error`, and the client `close` event. -/
inductive SEv where
  | data (chunk : List Nat)
  | uerror
  | clientClose
deriving DecidableEq

/-- One step of the relay session.  A destroyed upstream stream emits no
further `data` or `error` events, so those events are absorbed once
`upstreamDestroyed` holds.  Otherwise:
* `data` pipes the chunk (flushing headers on first write) unless the
  response has ended;
* `uerror` runs the error handler of lines 271-278 / 299-306: status 500
  with body `Error during streaming` when headers are not yet sent, else
  `res.end()` without touching the status;
* `clientClose` runs `response.data.destroy()` (lines 279-281 / 307-309). -/
def stepSession (s : Session) : SEv → Session
  | SEv.data c =>
      if s.upstreamDestroyed || s.resEnded then s
      else { s with written := s.written ++ c, headersSent := true }
  | SEv.uerror =>
      if s.upstreamDestroyed then s
      else if s.headersSent then { s with resEnded := true }
      else { s with status := 500, headersSent := true, resEnded := true,
                    written := strBytes "Error during streaming" }
  | SEv.clientClose => { s with upstreamDestroyed := true }

/-- Run a relay session over a list of events. -/
def runSession (s : Session) (evs : List SEv) : Session :=
  evs.foldl stepSession s

/-! ## Helper lemmas -/

theorem rangeStart_empty : rangeStart "" = none := rfl

theorem rangeStart_ne_empty {r : String} {s : Int} (h : rangeStart r = some s) :
    r ≠ "" := by
  intro hr
  rw [hr, rangeStart_empty] at h
  exact Option.noConfusion h

theorem jsTruthyStr_some_of_ne {r : String} (h : r ≠ "") :
    jsTruthyStr (some r) = true := by
  simp [jsTruthyStr, h]

theorem jsNumToString_some (n : Int) : jsNumToString (some n) = toString n := rfl

theorem rangePlan_parsed (r : String) (T s : Int) (hs : rangeStart r = some s) :
    rangePlan (some r) true (some T) =
      if T ≤ s then RelayPlan.unsatisfiable
      else RelayPlan.ranged (some s) (rangeEnd r (some T)) := by
  have hr := rangeStart_ne_empty hs
  simp only [rangePlan, Bool.true_and, jsTruthyStr_some_of_ne hr, if_true, Option.getD_some, hs,
    jsGe]
  by_cases h : T ≤ s <;> simp [h]

theorem isVideoOf_isSome {ct : Option String} {p : String}
    (h : isVideoOf ct p = true) : (resolveContentType ct p).isSome = true := by
  unfold isVideoOf startsWithVideo at h
  unfold resolveContentType
  cases hm : matchesVideoExt p with
  | true => simp
  | false =>
      rw [hm, Bool.or_false] at h
      cases ct with
      | none => simp [Option.getD] at h
      | some c => simp

theorem stepSession_absorbed (s : Session) (h : s.upstreamDestroyed = true) (e : SEv) :
    stepSession s e = s := by
  cases s with
  | mk hs hd he st w =>
      simp only at h
      subst h
      cases e <;> simp [stepSession]

theorem runSession_absorbed (s : Session) (h : s.upstreamDestroyed = true) (evs : List SEv) :
    runSession s evs = s := by
  induction evs with
  | nil => rfl
  | cons e rest ih =>
      show runSession (stepSession s e) rest = s
      rw [stepSession_absorbed s h e, ih]

/-! ## Claim theorems -/

/-- C3: the Range Planner yields `Full` when no Range header is present or
the media is not range-eligible; otherwise the header is parsed as
`bytes=<start>-<end>?`, a missing end defaults to `totalSize - 1`, the
plan is `Unsatisfiable` exactly when `start ≥ totalSize`, and otherwise
it is `Partial(start, end)` with `end` not clamped beyond
`totalSize - 1` (final conjunct: a plan whose end exceeds it). -/
theorem rangePlanner_behavior :
    (∀ (isVideo : Bool) (fileSize : JsInt), rangePlan none isVideo fileSize = RelayPlan.full) ∧
    (∀ (range : Option String) (fileSize : JsInt), rangePlan range false fileSize = RelayPlan.full) ∧
    (∀ (r : String) (T : Int), (rangeParts r).getD 1 [] = [] →
      rangeEnd r (some T) = some (T - 1)) ∧
    (∀ (r : String) (T s : Int), rangeStart r = some s →
      (rangePlan (some r) true (some T) = RelayPlan.unsatisfiable ↔ T ≤ s)) ∧
    (∀ (r : String) (T s : Int), rangeStart r = some s → s < T →
      rangePlan (some r) true (some T) = RelayPlan.ranged (some s) (rangeEnd r (some T))) ∧
    (∃ (r : String) (T s e : Int), rangeStart r = some s ∧ s < T ∧ T - 1 < e ∧
      rangePlan (some r) true (some T) = RelayPlan.ranged (some s) (some e)) := by
  refine ⟨?_, ?_, ?_, ?_, ?_, ?_⟩
  · intro isVideo fileSize
    simp [rangePlan, jsTruthyStr]
  · intro range fileSize
    simp [rangePlan]
  · intro r T h
    simp only [rangeEnd, h, jsSub]
    simp
  · intro r T s hs
    rw [rangePlan_parsed r T s hs]
    by_cases h : T ≤ s <;> simp [h]
  · intro r T s hs hlt
    rw [rangePlan_parsed r T s hs, if_neg (by omega)]
  · exact ⟨"bytes=0-2000", 1000, 0, 2000, by decide, by decide, by decide, by decide⟩

/-- C3 witness: a concrete satisfiable range on a 1000-byte object. -/
theorem rangePlanner_behavior_witness :
    rangePlan (some "bytes=500-") true (some 1000) =
      RelayPlan.ranged (some 500) (some 999) := by
  have h := rangePlanner_behavior.2.2.2.2.1 "bytes=500-" 1000 500 (by decide) (by decide)
  rw [h]
  decide

/-- C4 counterexample, one concrete violation per retracted clause:
on a 1000-byte object `Range: bytes=0-2000` yields `Partial(0, 2000)`
with `end ≥ totalSize` (no clamping); `Range: bytes=500-100` yields
`Partial(500, 100)` violating `start ≤ end`; with an unparseable
content-length (`fileSize` NaN) `Range: bytes=0-5` still yields a
`Partial` plan, so a Partial can be chosen with `totalSize` unknown;
and `Range: bytes=abc-5` yields the non-`Unsatisfiable` plan
`Partial(NaN, 5)` carrying no numeric start, so `start < totalSize`
fails for it. -/
theorem planInvariant_violations :
    (rangePlan (some "bytes=0-2000") true (some 1000) =
        RelayPlan.ranged (some 0) (some 2000) ∧
      ¬ ((2000 : Int) < 1000)) ∧
    (rangePlan (some "bytes=500-100") true (some 1000) =
        RelayPlan.ranged (some 500) (some 100) ∧
      ¬ ((500 : Int) ≤ 100)) ∧
    rangePlan (some "bytes=0-5") true none = RelayPlan.ranged (some 0) (some 5) ∧
    rangePlan (some "bytes=abc-5") true (some 1000) =
      RelayPlan.ranged none (some 5) := by
  refine ⟨⟨?_, ?_⟩, ⟨?_, ?_⟩, ?_, ?_⟩ <;> decide

/-- C4 (amended): the total size is parsed before the plan, but each of
the claimed invariants fails on some input (see the counterexample's
four conjuncts); what survives, proved here, is: for a numerically
parsed start against a numeric total size, the plan is `Unsatisfiable`
exactly when `start ≥ totalSize`, so every such `Partial` plan has
`start < totalSize`. -/
theorem planInvariant_startBound (r : String) (T s : Int)
    (hs : rangeStart r = some s) :
    (rangePlan (some r) true (some T) = RelayPlan.unsatisfiable ↔ T ≤ s) ∧
    (∀ e : JsInt, rangePlan (some r) true (some T) = RelayPlan.ranged (some s) e → s < T) := by
  constructor
  · rw [rangePlan_parsed r T s hs]
    by_cases h : T ≤ s <;> simp [h]
  · intro e he
    rw [rangePlan_parsed r T s hs] at he
    by_cases h : T ≤ s
    · rw [if_pos h] at he
      exact absurd he (by simp)
    · omega

/-- C4 witness: the amended invariant at `Range: bytes=5-9`, size 100. -/
theorem planInvariant_startBound_witness :
    (rangePlan (some "bytes=5-9") true (some 100) = RelayPlan.unsatisfiable ↔
      (100 : Int) ≤ 5) ∧
    (∀ e : JsInt, rangePlan (some "bytes=5-9") true (some 100) =
      RelayPlan.ranged (some 5) e → (5 : Int) < 100) :=
  planInvariant_startBound "bytes=5-9" 100 5 (by decide)

/-- C2 counterexample: for `Range: bytes=2000-3000` on a 1000-byte video
the gateway responds 416 as claimed, but the response body is the text
`Requested range not satisfiable`, not empty — refuting "no body". -/
theorem unsatRange_body_nonempty :
    (streamMedia (some "bytes=2000-3000") "/file/bot1/v.mp4" true
      { contentType := some "video/mp4", contentLength := some "1000" }
      (telegramFetch [])).status = 416 ∧
    (streamMedia (some "bytes=2000-3000") "/file/bot1/v.mp4" true
      { contentType := some "video/mp4", contentLength := some "1000" }
      (telegramFetch [])).body ≠ [] := by
  constructor
  · decide
  · decide

/-- C2 (amended): for every Range header on range-eligible media whose
start parses to `s ≥ totalSize`, the gateway responds immediately with
status 416 and the fixed text body `Requested range not satisfiable`
(rather than an empty body), and no upstream byte-fetch call is made. -/
theorem unsatRange_response (r pathName : String) (head : UpstreamHead)
    (fetch : Option (JsInt × JsInt) → List Nat) (s T : Int)
    (hs : rangeStart r = some s)
    (hT : jsParseInt (head.contentLength.getD "undefined") = some T)
    (hge : T ≤ s) :
    (streamMedia (some r) pathName true head fetch).status = 416 ∧
    (streamMedia (some r) pathName true head fetch).upstreamCalls = [] ∧
    (streamMedia (some r) pathName true head fetch).body =
      strBytes "Requested range not satisfiable" := by
  have hplan : rangePlan (some r) true (some T) = RelayPlan.unsatisfiable := by
    rw [rangePlan_parsed r T s hs, if_pos hge]
  simp [streamMedia, hT, hplan, relayResponse]

/-- C2 witness: the amended statement at `Range: bytes=2000-3000`,
reported size 1000. -/
theorem unsatRange_response_witness :
    (streamMedia (some "bytes=2000-3000") "/f/v.mp4" true
      { contentType := some "video/mp4", contentLength := some "1000" }
      (telegramFetch [0, 1, 2])).status = 416 ∧
    (streamMedia (some "bytes=2000-3000") "/f/v.mp4" true
      { contentType := some "video/mp4", contentLength := some "1000" }
      (telegramFetch [0, 1, 2])).upstreamCalls = [] ∧
    (streamMedia (some "bytes=2000-3000") "/f/v.mp4" true
      { contentType := some "video/mp4", contentLength := some "1000" }
      (telegramFetch [0, 1, 2])).body =
      strBytes "Requested range not satisfiable" :=
  unsatRange_response "bytes=2000-3000" "/f/v.mp4"
    { contentType := some "video/mp4", contentLength := some "1000" }
    (telegramFetch [0, 1, 2]) 2000 1000 (by decide) (by decide) (by decide)

/-- C10: the gateway never responds 400 from the relay, and a Range
header whose start does not parse to a number (JavaScript `NaN`) on
range-eligible media still produces a 206 response backed by one
upstream byte-fetch call whose forwarded Range renders the start as the
text `NaN` — the invalid plan is executed rather than rejected. -/
theorem malformedRange_executed :
    (∀ (range : Option String) (pathName : String) (isVideo : Bool)
      (head : UpstreamHead) (fetch : Option (JsInt × JsInt) → List Nat),
      (streamMedia range pathName isVideo head fetch).status ≠ 400) ∧
    (∀ (r pathName : String) (head : UpstreamHead)
      (fetch : Option (JsInt × JsInt) → List Nat),
      r ≠ "" → rangeStart r = none →
      (streamMedia (some r) pathName true head fetch).status = 206 ∧
      (streamMedia (some r) pathName true head fetch).upstreamCalls =
        [{ rangeParams :=
             some (none, rangeEnd r (jsParseInt (head.contentLength.getD "undefined"))),
           rangeHeaderValue :=
             some ("bytes=" ++ jsNumToString none ++ "-" ++
               jsNumToString
                 (rangeEnd r (jsParseInt (head.contentLength.getD "undefined")))) }]) := by
  constructor
  · intro range pathName isVideo head fetch
    unfold streamMedia
    cases rangePlan range isVideo (jsParseInt (head.contentLength.getD "undefined")) with
    | full =>
        simp only [relayResponse]
        split <;> simp
    | unsatisfiable => simp [relayResponse]
    | ranged s e => simp [relayResponse]
  · intro r pathName head fetch hr hstart
    have hplan : rangePlan (some r) true (jsParseInt (head.contentLength.getD "undefined")) =
        RelayPlan.ranged none
          (rangeEnd r (jsParseInt (head.contentLength.getD "undefined"))) := by
      simp only [rangePlan, Bool.true_and, jsTruthyStr_some_of_ne hr, if_true,
        Option.getD_some, hstart, jsGe]
      simp
    simp [streamMedia, hplan, relayResponse]

/-- C10 witness: `Range: bytes=abc-5` yields 206 and an upstream call
with the forwarded header `bytes=NaN-5`; and a no-range request is 200,
not 400. -/
theorem malformedRange_executed_witness :
    ((streamMedia (some "bytes=abc-5") "/f/v.mp4" true
      { contentType := some "video/mp4", contentLength := some "1000" }
      (telegramFetch [])).status = 206 ∧
    (streamMedia (some "bytes=abc-5") "/f/v.mp4" true
      { contentType := some "video/mp4", contentLength := some "1000" }
      (telegramFetch [])).upstreamCalls =
      [{ rangeParams := some (none, rangeEnd "bytes=abc-5" (jsParseInt "1000")),
         rangeHeaderValue :=
           some ("bytes=" ++ jsNumToString none ++ "-" ++
             jsNumToString (rangeEnd "bytes=abc-5" (jsParseInt "1000"))) }]) ∧
    (streamMedia none "/f/p.jpg" false
      { contentType := some "image/jpeg", contentLength := some "3" }
      (telegramFetch [])).status ≠ 400 :=
  ⟨malformedRange_executed.2 "bytes=abc-5" "/f/v.mp4"
      { contentType := some "video/mp4", contentLength := some "1000" }
      (telegramFetch []) (by decide) (by decide),
   malformedRange_executed.1 none "/f/p.jpg" false
      { contentType := some "image/jpeg", contentLength := some "3" }
      (telegramFetch [])⟩

/-- C1: for a Range header on range-eligible media whose parsed bounds
satisfy `0 ≤ start ≤ end < totalSize`, the relay makes exactly one
upstream byte-fetch call with the equivalent forwarded header
`bytes=start-end`, responds 206 with headers
`Content-Range: bytes start-end/totalSize`, `Accept-Ranges: bytes`,
`Content-Length: end-start+1`, `Content-Type` (which is defined for
range-eligible media) and `Cache-Control`, and the body is exactly the
`end-start+1`-byte slice of the full object. -/
theorem rangedRelay_correct (r pathName : String) (head : UpstreamHead)
    (obj : List Nat) (s e T : Int)
    (hs : rangeStart r = some s) (he : rangeEnd r (some T) = some e)
    (hT : jsParseInt (head.contentLength.getD "undefined") = some T)
    (hv : isVideoOf head.contentType pathName = true)
    (h0 : 0 ≤ s) (hse : s ≤ e) (heT : e < T)
    (hobj : (obj.length : Int) = T) :
    (streamMedia (some r) pathName true head (telegramFetch obj)).status = 206 ∧
    (streamMedia (some r) pathName true head (telegramFetch obj)).upstreamCalls =
      [{ rangeParams := some (some s, some e),
         rangeHeaderValue := some ("bytes=" ++ toString s ++ "-" ++ toString e) }] ∧
    (streamMedia (some r) pathName true head (telegramFetch obj)).headers =
      [("Content-Range",
         some ("bytes " ++ toString s ++ "-" ++ toString e ++ "/" ++ toString T)),
       ("Accept-Ranges", some "bytes"),
       ("Content-Length", some (toString (e - s + 1))),
       ("Content-Type", resolveContentType head.contentType pathName),
       ("Cache-Control", some "public, max-age=86400")] ∧
    (resolveContentType head.contentType pathName).isSome = true ∧
    (streamMedia (some r) pathName true head (telegramFetch obj)).body =
      (obj.drop s.toNat).take (e - s + 1).toNat ∧
    (streamMedia (some r) pathName true head (telegramFetch obj)).body.length =
      (e - s + 1).toNat := by
  have hplan : rangePlan (some r) true (some T) = RelayPlan.ranged (some s) (some e) := by
    rw [rangePlan_parsed r T s hs, if_neg (by omega), he]
  have hfetch : telegramFetch obj (some (some s, some e)) =
      (obj.drop s.toNat).take (e - s + 1).toNat := by
    rw [show telegramFetch obj (some (some s, some e)) =
        if 0 ≤ s ∧ s ≤ e ∧ s < (obj.length : Int) then
          (obj.drop s.toNat).take (e - s + 1).toNat
        else obj from rfl]
    rw [if_pos ⟨h0, hse, by omega⟩]
  have hlen : ((obj.drop s.toNat).take (e - s + 1).toNat).length = (e - s + 1).toNat := by
    rw [List.length_take, List.length_drop]
    omega
  refine ⟨?_, ?_, ?_, isVideoOf_isSome hv, ?_, ?_⟩ <;>
    simp [streamMedia, hT, hplan, relayResponse, jsAdd, jsSub, jsNumToString, hfetch, hlen]

/-- C1 witness: `Range: bytes=2-5` on a ten-byte video object. -/
theorem rangedRelay_correct_witness :
    (streamMedia (some "bytes=2-5") "/file/bot1/v.mp4" true
      { contentType := some "video/mp4", contentLength := some "10" }
      (telegramFetch [10, 11, 12, 13, 14, 15, 16, 17, 18, 19])).status = 206 ∧
    (streamMedia (some "bytes=2-5") "/file/bot1/v.mp4" true
      { contentType := some "video/mp4", contentLength := some "10" }
      (telegramFetch [10, 11, 12, 13, 14, 15, 16, 17, 18, 19])).upstreamCalls =
      [{ rangeParams := some (some 2, some 5),
         rangeHeaderValue := some ("bytes=" ++ toString (2 : Int) ++ "-" ++
           toString (5 : Int)) }] ∧
    (streamMedia (some "bytes=2-5") "/file/bot1/v.mp4" true
      { contentType := some "video/mp4", contentLength := some "10" }
      (telegramFetch [10, 11, 12, 13, 14, 15, 16, 17, 18, 19])).headers =
      [("Content-Range", some ("bytes " ++ toString (2 : Int) ++ "-" ++
          toString (5 : Int) ++ "/" ++ toString (10 : Int))),
       ("Accept-Ranges", some "bytes"),
       ("Content-Length", some (toString ((5 : Int) - 2 + 1))),
       ("Content-Type", resolveContentType (some "video/mp4") "/file/bot1/v.mp4"),
       ("Cache-Control", some "public, max-age=86400")] ∧
    (resolveContentType (some "video/mp4") "/file/bot1/v.mp4").isSome = true ∧
    (streamMedia (some "bytes=2-5") "/file/bot1/v.mp4" true
      { contentType := some "video/mp4", contentLength := some "10" }
      (telegramFetch [10, 11, 12, 13, 14, 15, 16, 17, 18, 19])).body =
      (([10, 11, 12, 13, 14, 15, 16, 17, 18, 19] : List Nat).drop (2 : Int).toNat).take
        ((5 : Int) - 2 + 1).toNat ∧
    (streamMedia (some "bytes=2-5") "/file/bot1/v.mp4" true
      { contentType := some "video/mp4", contentLength := some "10" }
      (telegramFetch [10, 11, 12, 13, 14, 15, 16, 17, 18, 19])).body.length =
      ((5 : Int) - 2 + 1).toNat :=
  rangedRelay_correct "bytes=2-5" "/file/bot1/v.mp4"
    { contentType := some "video/mp4", contentLength := some "10" }
    [10, 11, 12, 13, 14, 15, 16, 17, 18, 19] 2 5 10
    (by decide) (by decide) (by decide) (by decide) (by decide) (by decide) (by decide)
    (by decide)

/-- C5 counterexample: for a non-video locator with no upstream-reported
type, the resolved content type stays absent — it is not defaulted to
`application/octet-stream` as the claim states. -/
theorem classifier_noDefault :
    resolveContentType none "/file/bot1/data.bin" = none ∧
    resolveContentType none "/file/bot1/data.bin" ≠ some "application/octet-stream" := by
  constructor
  · decide
  · decide

/-- C5 (amended): if the locator's extension is a known video extension
the table's MIME type wins regardless of what upstream reports;
otherwise the upstream-reported type is used as-is, remaining absent
when upstream reports none (no `application/octet-stream` default); and
range support holds iff the resolved MIME type starts with `video/` or
the extension is in the video set. -/
theorem classifier_behavior (ct : Option String) (p : String) :
    (matchesVideoExt p = true → resolveContentType ct p = some (getContentType p)) ∧
    (matchesVideoExt p = false → resolveContentType ct p = ct) ∧
    isVideoOf ct p =
      (startsWithVideo (resolveContentType ct p) || matchesVideoExt p) := by
  refine ⟨?_, ?_, ?_⟩
  · intro h
    simp [resolveContentType, h]
  · intro h
    simp [resolveContentType, h]
  · cases h : matchesVideoExt p with
    | true => simp [isVideoOf, h]
    | false => simp [isVideoOf, resolveContentType, h]

/-- C5 witness: a `.mp4` locator reported as `application/octet-stream`
is overridden to `video/mp4` and classified as range-eligible. -/
theorem classifier_behavior_witness :
    (matchesVideoExt "/file/bot1/clip.mp4" = true →
      resolveContentType (some "application/octet-stream") "/file/bot1/clip.mp4" =
        some (getContentType "/file/bot1/clip.mp4")) ∧
    (matchesVideoExt "/file/bot1/clip.mp4" = false →
      resolveContentType (some "application/octet-stream") "/file/bot1/clip.mp4" =
        some "application/octet-stream") ∧
    isVideoOf (some "application/octet-stream") "/file/bot1/clip.mp4" =
      (startsWithVideo
        (resolveContentType (some "application/octet-stream") "/file/bot1/clip.mp4") ||
        matchesVideoExt "/file/bot1/clip.mp4") :=
  classifier_behavior (some "application/octet-stream") "/file/bot1/clip.mp4"

/-- C6: a Full-plan relay whose descriptor provides the values the claim
names — a resolved content type, and a content length when the media is
range-eligible — responds 200 with `Content-Type` and
`Cache-Control: public, max-age=86400`; on range-eligible media it also
carries `Accept-Ranges: bytes` and the descriptor's raw
`Content-Length`, even though the body is the whole object.  (Outside
these hypotheses `setHeader` receives `undefined` and the modeled relay
fails with 500 instead, per the `relayResponse` full branch.) -/
theorem fullRelay_headers (range : Option String) (pathName : String) (isVideo : Bool)
    (head : UpstreamHead) (obj : List Nat) (ct : String)
    (hplan : rangePlan range isVideo (jsParseInt (head.contentLength.getD "undefined")) =
      RelayPlan.full)
    (hct : resolveContentType head.contentType pathName = some ct)
    (hcl : isVideo = true → head.contentLength.isSome = true) :
    (streamMedia range pathName isVideo head (telegramFetch obj)).status = 200 ∧
    ("Content-Type", some ct) ∈
      (streamMedia range pathName isVideo head (telegramFetch obj)).headers ∧
    ("Cache-Control", some "public, max-age=86400") ∈
      (streamMedia range pathName isVideo head (telegramFetch obj)).headers ∧
    (isVideo = true →
      ("Accept-Ranges", some "bytes") ∈
        (streamMedia range pathName isVideo head (telegramFetch obj)).headers ∧
      ("Content-Length", head.contentLength) ∈
        (streamMedia range pathName isVideo head (telegramFetch obj)).headers) ∧
    (streamMedia range pathName isVideo head (telegramFetch obj)).body = obj := by
  cases isVideo with
  | false =>
      refine ⟨?_, ?_, ?_, ?_, ?_⟩ <;>
        simp [streamMedia, hplan, relayResponse, hct, telegramFetch]
  | true =>
      obtain ⟨cl, hclv⟩ := Option.isSome_iff_exists.mp (hcl rfl)
      rw [hclv] at hplan
      simp only [Option.getD_some] at hplan
      refine ⟨?_, ?_, ?_, ?_, ?_⟩ <;>
        simp [streamMedia, hplan, relayResponse, hct, hclv, telegramFetch]

/-- C6 witness: a no-range request for a video object carries all four
headers and returns the whole three-byte body. -/
theorem fullRelay_headers_witness :
    (streamMedia none "/file/bot1/v.mp4" true
      { contentType := some "video/mp4", contentLength := some "3" }
      (telegramFetch [7, 8, 9])).status = 200 ∧
    ("Content-Type", some "video/mp4") ∈
      (streamMedia none "/file/bot1/v.mp4" true
        { contentType := some "video/mp4", contentLength := some "3" }
        (telegramFetch [7, 8, 9])).headers ∧
    ("Cache-Control", some "public, max-age=86400") ∈
      (streamMedia none "/file/bot1/v.mp4" true
        { contentType := some "video/mp4", contentLength := some "3" }
        (telegramFetch [7, 8, 9])).headers ∧
    (true = true →
      ("Accept-Ranges", some "bytes") ∈
        (streamMedia none "/file/bot1/v.mp4" true
          { contentType := some "video/mp4", contentLength := some "3" }
          (telegramFetch [7, 8, 9])).headers ∧
      ("Content-Length",
        (UpstreamHead.mk (some "video/mp4") (some "3")).contentLength) ∈
        (streamMedia none "/file/bot1/v.mp4" true
          { contentType := some "video/mp4", contentLength := some "3" }
          (telegramFetch [7, 8, 9])).headers) ∧
    (streamMedia none "/file/bot1/v.mp4" true
      { contentType := some "video/mp4", contentLength := some "3" }
      (telegramFetch [7, 8, 9])).body = [7, 8, 9] :=
  fullRelay_headers none "/file/bot1/v.mp4" true
    { contentType := some "video/mp4", contentLength := some "3" }
    [7, 8, 9] "video/mp4" (by decide) (by decide) (by decide)

/-- C7 counterexample: when the upstream store answers `ok` but with no
content path, the handler does not respond 404 and the descriptor HEAD
call is still made.  With a non-video HEAD content type the request then
dies in the line-343 TypeError on the missing path, caught into a 500
with no byte fetch; with a `video/*` content type the `||`
short-circuits and the relay is entered on the literal `undefined`
path.  Either way the claimed "404 and no relay stage ever entered"
fails. -/
theorem missingPath_not404 :
    (mediaHandler (some "TOK") { ok := true, filePathField := none } none
      { contentType := some "image/jpeg", contentLength := some "5" }
      (telegramFetch [1, 2, 3, 4, 5])).status = 500 ∧
    (mediaHandler (some "TOK") { ok := true, filePathField := none } none
      { contentType := some "image/jpeg", contentLength := some "5" }
      (telegramFetch [1, 2, 3, 4, 5])).headCalls = 1 ∧
    (mediaHandler (some "TOK") { ok := true, filePathField := none } none
      { contentType := some "image/jpeg", contentLength := some "5" }
      (telegramFetch [1, 2, 3, 4, 5])).relay = none ∧
    (mediaHandler (some "TOK") { ok := true, filePathField := none } none
      { contentType := some "video/mp4", contentLength := some "5" }
      (telegramFetch [1, 2, 3, 4, 5])).status = 200 ∧
    (mediaHandler (some "TOK") { ok := true, filePathField := none } none
      { contentType := some "video/mp4", contentLength := some "5" }
      (telegramFetch [1, 2, 3, 4, 5])).relay ≠ none := by
  refine ⟨?_, ?_, ?_, ?_, ?_⟩ <;> decide

/-- C7 (amended): when the upstream store reports that the object does
not exist (`ok` false), the response is 404 and no relay stage is
entered (no HEAD call, no byte fetch, no streaming).  A reply lacking a
content path is not treated as a resolution failure: the HEAD call is
still made, after which the request fails with 500 from the TypeError
on the missing path — or, when the HEAD reports a `video/*` type, the
relay is entered on the literal `undefined` path. -/
theorem resolutionNotFound_404 (tok : String) (gf : GetFileResp)
    (range : Option String) (head : UpstreamHead)
    (fetch : Option (JsInt × JsInt) → List Nat)
    (hok : gf.ok = false) :
    mediaHandler (some tok) gf range head fetch =
      { status := 404, headCalls := 0, relay := none } := by
  simp [mediaHandler, hok]

/-- C7 witness: a not-found reply yields 404 with no upstream calls. -/
theorem resolutionNotFound_404_witness :
    mediaHandler (some "TOK") { ok := false, filePathField := none } none
      { contentType := none, contentLength := none } (telegramFetch []) =
      { status := 404, headCalls := 0, relay := none } :=
  resolutionNotFound_404 "TOK" { ok := false, filePathField := none } none
    { contentType := none, contentLength := none } (telegramFetch []) (by decide)

/-- C8: when the client connection closes, the `close` handler destroys
the upstream stream (`response.data.destroy()`, wired identically in the
Full and Partial relays); from that point the session is inert — no
later event changes it, so no further bytes are read or written. -/
theorem clientClose_cancelsUpstream (s : Session) (evs : List SEv) :
    (stepSession s SEv.clientClose).upstreamDestroyed = true ∧
    runSession (stepSession s SEv.clientClose) evs = stepSession s SEv.clientClose := by
  have hd : (stepSession s SEv.clientClose).upstreamDestroyed = true := rfl
  exact ⟨hd, runSession_absorbed _ hd evs⟩

/-- C9: on an upstream stream error, if response headers have not been
sent the request fails as a whole with status 500 and the text body
`Error during streaming`; if headers have been sent the response is
ended without touching the status, so the client sees a truncated
transfer rather than a new error status. -/
theorem upstreamError_headerPolicy (s : Session)
    (hd : s.upstreamDestroyed = false) :
    (s.headersSent = false →
      stepSession s SEv.uerror =
        { s with status := 500, headersSent := true, resEnded := true,
                 written := strBytes "Error during streaming" }) ∧
    (s.headersSent = true →
      stepSession s SEv.uerror = { s with resEnded := true }) := by
  constructor <;> intro h <;> simp [stepSession, hd, h]

/-- C9 witness: the policy at a live session that has not sent headers. -/
theorem upstreamError_headerPolicy_witness :
    ((Session.mk false false false 200 []).headersSent = false →
      stepSession (Session.mk false false false 200 []) SEv.uerror =
        { Session.mk false false false 200 [] with
            status := 500, headersSent := true, resEnded := true,
            written := strBytes "Error during streaming" }) ∧
    ((Session.mk false false false 200 []).headersSent = true →
      stepSession (Session.mk false false false 200 []) SEv.uerror =
        { Session.mk false false false 200 [] with resEnded := true }) :=
  upstreamError_headerPolicy (Session.mk false false false 200 []) rfl
